import Mathlib

/-!
Verification of the EcoRoute AI emissions-estimation and route-variant
engine against its specification.

The repository ships the React frontend (App.js, Map.js, Sidebar.js, api.js,
the second Sidebar variant), the SQL schema and the README; the FastAPI
backend (backend/app/core/emissions.py, the weather cache in
backend/app/utils/external_apis.py, backend/app/main.py) is not part of the
source tree.  Components that live only in the missing backend are modelled
from the specification; their doc comments say so explicitly.  Everything
taken from the frontend sources is embedded directly from the JavaScript.

Numbers are embedded as rationals: the JavaScript arithmetic in question is
plain field arithmetic (sums, products, divisions, min, rounding), and the
properties at stake are sign, ordering and monotonicity facts.
-/

namespace EcoRoute

/-- Modelled from the spec: the EcoScoreClassifier lives in the missing
backend (backend/app/core/emissions.py).  Spec section 6 fixes the
thresholds in grams CO2 per km: A+ below 50, A below 100, B below 200,
C below 300, D below 400, E at or above 400. -/
def classify (r : ℚ) : String :=
  if r < 50 then "A+"
  else if r < 100 then "A"
  else if r < 200 then "B"
  else if r < 300 then "C"
  else if r < 400 then "D"
  else "E"

/-- Position of a grade in the ordered scale A+ (best) to E (worst);
used to state monotonicity of the classifier. -/
def gradeRank (g : String) : ℕ :=
  if g = "A+" then 0
  else if g = "A" then 1
  else if g = "B" then 2
  else if g = "C" then 3
  else if g = "D" then 4
  else 5

theorem gradeRank_classify (r : ℚ) :
    gradeRank (classify r) =
      if r < 50 then 0 else if r < 100 then 1 else if r < 200 then 2
      else if r < 300 then 3 else if r < 400 then 4 else 5 := by
  unfold classify gradeRank
  split_ifs <;> simp_all

/-- C1: the eco-score classifier is total and monotonic on nonnegative
rates and realises the fixed ascending thresholds: A+ for r < 50, A for
50 <= r < 100, B for 100 <= r < 200, C for 200 <= r < 300, D for
300 <= r < 400, E for r >= 400; in particular classify 49 = "A+",
classify 50 = "A", classify 399 = "D", classify 400 = "E",
classify 10000 = "E", and the result is always one of the six grades. -/
theorem C1_ecoscore_classifier (r r1 r2 : ℚ) (hr : 0 ≤ r) (h1 : 0 ≤ r1)
    (h12 : r1 ≤ r2) :
    (r < 50 → classify r = "A+") ∧
    (50 ≤ r ∧ r < 100 → classify r = "A") ∧
    (100 ≤ r ∧ r < 200 → classify r = "B") ∧
    (200 ≤ r ∧ r < 300 → classify r = "C") ∧
    (300 ≤ r ∧ r < 400 → classify r = "D") ∧
    (400 ≤ r → classify r = "E") ∧
    gradeRank (classify r1) ≤ gradeRank (classify r2) ∧
    (classify r = "A+" ∨ classify r = "A" ∨ classify r = "B" ∨
      classify r = "C" ∨ classify r = "D" ∨ classify r = "E") ∧
    classify 49 = "A+" ∧ classify 50 = "A" ∧ classify 399 = "D" ∧
    classify 400 = "E" ∧ classify 10000 = "E" := by
  refine ⟨?_, ?_, ?_, ?_, ?_, ?_, ?_, ?_, ?_, ?_, ?_, ?_, ?_⟩
  · intro h; unfold classify; split_ifs <;> first | rfl | (exfalso; linarith)
  · rintro ⟨ha, hb⟩; unfold classify
    split_ifs <;> first | rfl | (exfalso; linarith)
  · rintro ⟨ha, hb⟩; unfold classify
    split_ifs <;> first | rfl | (exfalso; linarith)
  · rintro ⟨ha, hb⟩; unfold classify
    split_ifs <;> first | rfl | (exfalso; linarith)
  · rintro ⟨ha, hb⟩; unfold classify
    split_ifs <;> first | rfl | (exfalso; linarith)
  · intro h; unfold classify; split_ifs <;> first | rfl | (exfalso; linarith)
  · rw [gradeRank_classify, gradeRank_classify]
    split_ifs <;> first | (exfalso; linarith) | norm_num
  · unfold classify; split_ifs <;> simp
  · norm_num [classify]
  · norm_num [classify]
  · norm_num [classify]
  · norm_num [classify]
  · norm_num [classify]

/-- Witness for C1 at the concrete rates 0, 0 and 1. -/
theorem C1_ecoscore_classifier_witness :
    gradeRank (classify 0) ≤ gradeRank (classify 1) ∧ classify 49 = "A+" := by
  have h := C1_ecoscore_classifier 0 0 1 (by norm_num) (by norm_num)
    (by norm_num)
  exact ⟨h.2.2.2.2.2.2.1, h.2.2.2.2.2.2.2.2.1⟩

/-- A query point, latitude and longitude in degrees. -/
structure Location where
  lat : ℚ
  lon : ℚ
deriving DecidableEq, Repr

/-- Modelled from the spec: the WeatherSample record of the missing
backend weather cache (spec section 3), restricted to the fields the
claims mention, together with the degraded flag of section 4.2. -/
structure WeatherSample where
  temperature : ℚ
  wind_speed : ℚ
  condition : String
  observed_at : ℤ
  degraded : Bool
deriving DecidableEq, Repr

/-- Raw data returned by the external weather provider on success. -/
structure ProviderData where
  temperature : ℚ
  wind_speed : ℚ
  condition : String
deriving DecidableEq, Repr

/-- The external weather provider: none models failure or timeout. -/
abbrev Provider := Location → ℤ → Option ProviderData

/-- Freshness window of a cached sample, in seconds (30 minutes). -/
def TTL : ℤ := 1800

/-- Width of a time bucket, in seconds (30 minutes, spec section 4.2). -/
def timeBucketWidth : ℤ := 1800

/-- Long-horizon retention limit for fallback samples (24 hours). -/
def retentionLimit : ℤ := 86400

/-- Spatial bucket: coordinates rounded down at two decimal places,
roughly one-kilometre cells (spec section 4.2). -/
def spatialBucket (loc : Location) : ℤ × ℤ :=
  (⌊loc.lat * 100⌋, ⌊loc.lon * 100⌋)

/-- Time bucket: the timestamp rounded down to the bucket width. -/
def timeBucket (t : ℤ) : ℤ := t / timeBucketWidth

/-- Composite cache key: (spatial bucket, time bucket). -/
abbrev BucketKey := (ℤ × ℤ) × ℤ

/-- Modelled from the spec: the cache store of the missing backend,
at most one entry per (spatial bucket, time bucket) key. -/
structure CacheState where
  entries : List (BucketKey × WeatherSample)
deriving DecidableEq, Repr

/-- Look up the entry stored under a bucket key. -/
def lookupEntry (st : CacheState) (key : BucketKey) : Option WeatherSample :=
  (st.entries.find? fun e => decide (e.1 = key)).map (fun e => e.2)

/-- Insert-or-overwrite under a bucket key, lazily purging entries
beyond the retention limit (spec section 4.2, eviction). -/
def insertEntry (st : CacheState) (key : BucketKey) (s : WeatherSample)
    (t : ℤ) : CacheState :=
  ⟨(key, s) :: st.entries.filter fun e =>
      !decide (e.1 = key) && decide (t - e.2.observed_at ≤ retentionLimit)⟩

/-- Neutral default sample served when the provider fails and no cached
fallback exists: moderate temperature, zero wind, clear conditions,
marked degraded (spec section 4.2). -/
def defaultSample (t : ℤ) : WeatherSample :=
  { temperature := 20, wind_speed := 0, condition := "clear"
    observed_at := t, degraded := true }

/-- Samples cached in a given spatial bucket that are still within the
retention limit at the query time: the non-expired fallback candidates. -/
def bucketCandidates (st : CacheState) (sb : ℤ × ℤ) (t : ℤ) :
    List WeatherSample :=
  (st.entries.filter fun e =>
      decide (e.1.1 = sb) && decide (t - e.2.observed_at ≤ retentionLimit)).map
    (fun e => e.2)

/-- Keep whichever of the accumulator and the next sample was observed
later. -/
def pickLatest (acc : Option WeatherSample) (s : WeatherSample) :
    Option WeatherSample :=
  match acc with
  | none => some s
  | some s0 => if s0.observed_at < s.observed_at then some s else some s0

/-- The most recent non-expired sample in a spatial bucket, if any. -/
def fallbackSample (st : CacheState) (sb : ℤ × ℤ) (t : ℤ) :
    Option WeatherSample :=
  (bucketCandidates st sb t).foldl pickLatest none

/-- The cached sample for the query buckets when it is present and not
stale (sample age at most TTL relative to the query time). -/
def freshHit (st : CacheState) (loc : Location) (t : ℤ) :
    Option WeatherSample :=
  match lookupEntry st (spatialBucket loc, timeBucket t) with
  | some s => if t - s.observed_at ≤ TTL then some s else none
  | none => none

/-- Result of one cache get: the sample served, the new cache state, and
how many external provider calls were issued (0 or 1). -/
structure GetResult where
  sample : WeatherSample
  state : CacheState
  providerCalls : ℕ
deriving DecidableEq, Repr

/-- Modelled from the spec: the refresh path of the missing backend
cache (spec section 4.2).  On provider success the cache constructs a
sample observed at the query time and stores it under the bucket key;
on failure it serves the most recent non-expired sample of the same
spatial bucket, or the neutral default, marked degraded — it never
raises. -/
def refresh (provider : Provider) (st : CacheState) (loc : Location)
    (t : ℤ) : GetResult :=
  match provider loc t with
  | some d =>
      let s : WeatherSample :=
        { temperature := d.temperature, wind_speed := d.wind_speed
          condition := d.condition, observed_at := t, degraded := false }
      ⟨s, insertEntry st (spatialBucket loc, timeBucket t) s t, 1⟩
  | none =>
      match fallbackSample st (spatialBucket loc) t with
      | some s => ⟨{ s with degraded := true }, st, 1⟩
      | none => ⟨defaultSample t, st, 1⟩

/-- Modelled from the spec: get of the missing backend cache (spec
section 4.2).  A hit that is not stale returns immediately with no
external call; a stale hit or a miss goes through the refresh path. -/
def get (provider : Provider) (st : CacheState) (loc : Location)
    (t : ℤ) : GetResult :=
  match freshHit st loc t with
  | some s => ⟨s, st, 0⟩
  | none => refresh provider st loc t

theorem pickLatest_none (s : WeatherSample) : pickLatest none s = some s :=
  rfl

theorem pickLatest_some (s0 s : WeatherSample) :
    pickLatest (some s0) s =
      if s0.observed_at < s.observed_at then some s else some s0 :=
  rfl

theorem foldl_pickLatest_eq_some (l : List WeatherSample)
    (acc : Option WeatherSample) (s : WeatherSample)
    (h : l.foldl pickLatest acc = some s) : s ∈ l ∨ acc = some s := by
  induction l generalizing acc with
  | nil => exact Or.inr h
  | cons a l ih =>
    rcases ih (pickLatest acc a) h with hmem | hacc
    · exact Or.inl (List.mem_cons_of_mem a hmem)
    · cases acc with
      | none =>
        rw [pickLatest_none] at hacc
        cases hacc
        exact Or.inl (List.mem_cons_self _ _)
      | some s0 =>
        rw [pickLatest_some] at hacc
        split_ifs at hacc
        · cases hacc
          exact Or.inl (List.mem_cons_self _ _)
        · exact Or.inr hacc

theorem foldl_pickLatest_max (l : List WeatherSample)
    (acc : Option WeatherSample) (s : WeatherSample)
    (h : l.foldl pickLatest acc = some s) :
    (∀ s2 ∈ l, s2.observed_at ≤ s.observed_at) ∧
    (∀ a, acc = some a → a.observed_at ≤ s.observed_at) := by
  induction l generalizing acc with
  | nil =>
    refine ⟨by simp, ?_⟩
    intro a ha
    rw [ha] at h
    cases h
    exact le_refl _
  | cons b l ih =>
    have h2 := ih (pickLatest acc b) h
    have hb : b.observed_at ≤ s.observed_at := by
      cases hacc : acc with
      | none => exact h2.2 b (by rw [hacc, pickLatest_none])
      | some s0 =>
        by_cases hlt : s0.observed_at < b.observed_at
        · exact h2.2 b (by rw [hacc, pickLatest_some, if_pos hlt])
        · have h0 := h2.2 s0 (by rw [hacc, pickLatest_some, if_neg hlt])
          linarith [not_lt.mp hlt]
    constructor
    · intro s2 hs2
      rcases List.mem_cons.mp hs2 with rfl | hmem
      · exact hb
      · exact h2.1 s2 hmem
    · intro a ha
      subst ha
      by_cases hlt : a.observed_at < b.observed_at
      · linarith
      · exact h2.2 a (by rw [pickLatest_some, if_neg hlt])

theorem foldl_pickLatest_isSome (l : List WeatherSample) (s0 : WeatherSample) :
    (l.foldl pickLatest (some s0)).isSome := by
  induction l generalizing s0 with
  | nil => rfl
  | cons b l ih =>
    show (l.foldl pickLatest (pickLatest (some s0) b)).isSome
    rw [pickLatest_some]
    split_ifs <;> exact ih _

theorem fallbackSample_mem (st : CacheState) (sb : ℤ × ℤ) (t : ℤ)
    (s : WeatherSample) (h : fallbackSample st sb t = some s) :
    s ∈ bucketCandidates st sb t := by
  rcases foldl_pickLatest_eq_some _ _ _ h with hm | hacc
  · exact hm
  · cases hacc

theorem fallbackSample_latest (st : CacheState) (sb : ℤ × ℤ) (t : ℤ)
    (s : WeatherSample) (h : fallbackSample st sb t = some s) :
    ∀ s2 ∈ bucketCandidates st sb t, s2.observed_at ≤ s.observed_at :=
  (foldl_pickLatest_max _ _ _ h).1

theorem fallbackSample_eq_none (st : CacheState) (sb : ℤ × ℤ) (t : ℤ)
    (h : fallbackSample st sb t = none) : bucketCandidates st sb t = [] := by
  cases hc : bucketCandidates st sb t with
  | nil => rfl
  | cons b l =>
    exfalso
    unfold fallbackSample at h
    rw [hc] at h
    have h3 : l.foldl pickLatest (some b) = none := h
    have h2 := foldl_pickLatest_isSome l b
    rw [h3] at h2
    simp at h2

/-- C2: with a failing external weather provider, get never raises (it is
a total function into GetResult): on a fresh cache hit it serves the
cached sample with no provider call, and otherwise it serves the most
recent non-expired sample of the same spatial bucket when one exists —
member of the candidates and maximal in observed_at — or else the
defined neutral default sample, in both failure cases marked with the
degraded flag. -/
theorem C2_weather_provider_failure (provider : Provider) (st : CacheState)
    (loc : Location) (t : ℤ) (hfail : provider loc t = none) :
    (∀ s, freshHit st loc t = some s →
        get provider st loc t = ⟨s, st, 0⟩) ∧
    (freshHit st loc t = none →
      ((∃ s, fallbackSample st (spatialBucket loc) t = some s ∧
          s ∈ bucketCandidates st (spatialBucket loc) t ∧
          (∀ s2 ∈ bucketCandidates st (spatialBucket loc) t,
              s2.observed_at ≤ s.observed_at) ∧
          get provider st loc t = ⟨{ s with degraded := true }, st, 1⟩ ∧
          (get provider st loc t).sample.degraded = true) ∨
       (bucketCandidates st (spatialBucket loc) t = [] ∧
          get provider st loc t = ⟨defaultSample t, st, 1⟩ ∧
          (get provider st loc t).sample.degraded = true))) := by
  constructor
  · intro s hs
    unfold get
    rw [hs]
  · intro hmiss
    have hget : get provider st loc t = refresh provider st loc t := by
      unfold get
      rw [hmiss]
    cases hfb : fallbackSample st (spatialBucket loc) t with
    | some s =>
      have hr : refresh provider st loc t =
          ⟨{ s with degraded := true }, st, 1⟩ := by
        unfold refresh
        rw [hfail, hfb]
      left
      exact ⟨s, rfl, fallbackSample_mem _ _ _ _ hfb,
        fallbackSample_latest _ _ _ _ hfb, hget.trans hr,
        by rw [hget, hr]⟩
    | none =>
      have hr : refresh provider st loc t = ⟨defaultSample t, st, 1⟩ := by
        unfold refresh
        rw [hfail, hfb]
      right
      exact ⟨fallbackSample_eq_none _ _ _ hfb, hget.trans hr,
        by rw [hget, hr]; rfl⟩

/-- Witness for C2: the always-failing provider against the empty cache
at the origin and time zero yields the degraded default sample. -/
theorem C2_weather_provider_failure_witness :
    (get (fun _ _ => none) ⟨[]⟩ ⟨0, 0⟩ 0).sample.degraded = true := by
  have h := (C2_weather_provider_failure (fun _ _ => none) ⟨[]⟩ ⟨0, 0⟩ 0
    rfl).2 (by decide)
  rcases h with ⟨s, _, _, _, _, hdeg⟩ | ⟨_, _, hdeg⟩ <;> exact hdeg

theorem get_providerCalls_le_one (provider : Provider) (st : CacheState)
    (loc : Location) (t : ℤ) : (get provider st loc t).providerCalls ≤ 1 := by
  unfold get
  cases hf : freshHit st loc t with
  | some s => exact Nat.zero_le 1
  | none =>
    unfold refresh
    cases hp : provider loc t with
    | some d => exact le_refl 1
    | none =>
      cases hfb : fallbackSample st (spatialBucket loc) t with
      | some s => exact le_refl 1
      | none => exact le_refl 1

theorem timeBucket_eq_close (t1 t2 : ℤ) (h : timeBucket t1 = timeBucket t2) :
    t2 - t1 ≤ TTL := by
  unfold timeBucket timeBucketWidth at h
  unfold TTL
  omega

theorem lookupEntry_insert_self (st : CacheState) (key : BucketKey)
    (s : WeatherSample) (t : ℤ) :
    lookupEntry (insertEntry st key s t) key = some s := by
  unfold lookupEntry insertEntry
  simp [List.find?]

theorem get_of_freshHit (provider : Provider) (st : CacheState)
    (loc : Location) (t : ℤ) (s : WeatherSample)
    (h : freshHit st loc t = some s) : get provider st loc t = ⟨s, st, 0⟩ := by
  unfold get
  rw [h]

theorem freshHit_of_lookup (st : CacheState) (loc : Location) (t : ℤ)
    (s : WeatherSample)
    (h : lookupEntry st (spatialBucket loc, timeBucket t) = some s)
    (hfr : t - s.observed_at ≤ TTL) : freshHit st loc t = some s := by
  unfold freshHit
  rw [h]
  exact if_pos hfr

/-- C3: two successive gets whose queries fall in the same spatial
bucket and the same time bucket, with a never-failing provider, issue at
most one external provider call between them; and a fresh hit returns
the cached sample immediately with no external call. -/
theorem C3_cache_idempotence (provider : Provider) (st : CacheState)
    (loc1 loc2 : Location) (t1 t2 : ℤ)
    (hp : ∀ l u, (provider l u).isSome = true)
    (hsb : spatialBucket loc1 = spatialBucket loc2)
    (htb : timeBucket t1 = timeBucket t2) :
    (get provider st loc1 t1).providerCalls +
      (get provider (get provider st loc1 t1).state loc2 t2).providerCalls
        ≤ 1 ∧
    (∀ s, freshHit st loc1 t1 = some s →
        get provider st loc1 t1 = ⟨s, st, 0⟩) := by
  constructor
  · cases hf : freshHit st loc1 t1 with
    | some s =>
      have h1 : get provider st loc1 t1 = ⟨s, st, 0⟩ := by
        unfold get
        rw [hf]
      rw [h1]
      simpa using get_providerCalls_le_one provider st loc2 t2
    | none =>
      obtain ⟨d, hd⟩ := Option.isSome_iff_exists.mp (hp loc1 t1)
      have h1 : get provider st loc1 t1 =
          ⟨{ temperature := d.temperature, wind_speed := d.wind_speed
             condition := d.condition, observed_at := t1, degraded := false },
           insertEntry st (spatialBucket loc1, timeBucket t1)
             { temperature := d.temperature, wind_speed := d.wind_speed
               condition := d.condition, observed_at := t1, degraded := false }
             t1, 1⟩ := by
        unfold get refresh
        rw [hf, hd]
      have h2 : freshHit (get provider st loc1 t1).state loc2 t2 =
          some { temperature := d.temperature, wind_speed := d.wind_speed
                 condition := d.condition, observed_at := t1
                 degraded := false } := by
        rw [h1]
        apply freshHit_of_lookup
        · rw [← hsb, ← htb]
          exact lookupEntry_insert_self _ _ _ _
        · exact timeBucket_eq_close t1 t2 htb
      have h3 : (get provider (get provider st loc1 t1).state loc2
          t2).providerCalls = 0 := by
        rw [get_of_freshHit provider _ loc2 t2 _ h2]
      rw [h1] at h3
      rw [h1, h3]
  · intro s hs
    unfold get
    rw [hs]

/-- Witness for C3: a constant provider on the empty cache, queried
twice at the origin at times 0 and 60 seconds. -/
theorem C3_cache_idempotence_witness :
    (get (fun _ _ => some ⟨20, 0, "clear"⟩) ⟨[]⟩ ⟨0, 0⟩ 0).providerCalls +
      (get (fun _ _ => some ⟨20, 0, "clear"⟩)
        (get (fun _ _ => some ⟨20, 0, "clear"⟩) ⟨[]⟩ ⟨0, 0⟩ 0).state
        ⟨0, 0⟩ 60).providerCalls ≤ 1 :=
  (C3_cache_idempotence (fun _ _ => some ⟨20, 0, "clear"⟩) ⟨[]⟩ ⟨0, 0⟩ ⟨0, 0⟩
    0 60 (fun _ _ => rfl) rfl (by decide)).1

/-- Modelled from the spec: the VehicleProfile record of the missing
backend resolver (spec section 3): physical constants for a
(mode, vehicle type, fuel type) tuple.  fuel_efficiency is distance per
fuel unit (km per litre), emission_factor is mass CO2 per fuel unit. -/
structure VehicleProfile where
  mode : String
  vehicle_type : String
  fuel_type : String
  fuel_efficiency : ℚ
  emission_factor : ℚ
  base_speed : ℚ
deriving DecidableEq, Repr

/-- Modelled from the spec: the static profile table loaded at process
start (spec section 4.1), over the documented modes car, bike, truck,
motorcycle and the vehicle types offered by Map.js; the numeric
constants are illustrative, consistent with the frontend mock table in
App.js (diesel 3.5 km/L and 2.68 kg/L, lng 4.2 km/L and 2.1 kg/L). -/
def profileTable : List VehicleProfile :=
  [⟨"car", "petrol", "petrol", 12, 2.31, 60⟩,
   ⟨"car", "diesel", "diesel", 15, 2.68, 60⟩,
   ⟨"car", "hybrid", "petrol", 20, 2.31, 60⟩,
   ⟨"car", "electric", "electric", 6, 0.5, 60⟩,
   ⟨"car", "suv", "petrol", 9, 2.31, 60⟩,
   ⟨"car", "compact", "petrol", 14, 2.31, 60⟩,
   ⟨"truck", "small", "diesel", 5, 2.68, 50⟩,
   ⟨"truck", "medium", "diesel", 4, 2.68, 50⟩,
   ⟨"truck", "large", "diesel", 3.5, 2.68, 50⟩,
   ⟨"truck", "large", "lng", 4.2, 2.1, 50⟩,
   ⟨"truck", "articulated", "diesel", 3, 2.68, 50⟩,
   ⟨"motorcycle", "small", "petrol", 35, 2.31, 55⟩,
   ⟨"motorcycle", "medium", "petrol", 30, 2.31, 55⟩,
   ⟨"motorcycle", "large", "petrol", 25, 2.31, 55⟩,
   ⟨"bike", "manual", "none", 1, 0, 15⟩,
   ⟨"bike", "electric", "electric", 50, 0.5, 20⟩]

/-- The table entry matching a (mode, vehicle type, fuel type) tuple. -/
def resolveProfile (mode vtype ftype : String) : Option VehicleProfile :=
  profileTable.find? fun p =>
    decide (p.mode = mode) && decide (p.vehicle_type = vtype) &&
      decide (p.fuel_type = ftype)

/-- Modelled from the spec: VehicleProfileResolver.resolve of the
missing backend (spec section 4.1) — fails with UnknownProfile when no
table entry matches the tuple. -/
def resolve (mode vtype ftype : String) : Except String VehicleProfile :=
  match resolveProfile mode vtype ftype with
  | some p => Except.ok p
  | none => Except.error "UnknownProfile"

/-- Modelled from the spec: the categorical traffic percentage table of
the ImpactFactorModel (spec section 4.3); an unknown category means no
adjustment, never an error. -/
def trafficPct (c : String) : ℚ :=
  if c = "normal" then 0
  else if c = "highway" then -10
  else if c = "urban" then 15
  else if c = "rural" then -5
  else if c = "congested" then 35
  else 0

/-- Modes that carry freight (spec section 4.3: trucks, ships). -/
def freightMode (m : String) : Bool :=
  m = "truck" || m = "ship"

/-- Modelled from the spec: the cargo adjustment of the
ImpactFactorModel (spec section 4.3): proportional to the cargo weight,
min (cargo_weight / 10000 * 100) 50, and only for freight modes. -/
def cargoPct (m : String) (w : ℚ) : ℚ :=
  if freightMode m then min (w / 10000 * 100) 50 else 0

/-- Modelled from the spec: the weather adjustment of the
ImpactFactorModel (spec section 4.3): a monotone bounded penalty for
deviation from the neutral baseline of 20 degrees and no wind, capped
at 25 percent. -/
def weatherPct (ws : WeatherSample) : ℚ :=
  min ((|ws.temperature - 20| + |ws.wind_speed|) / 2) 25

/-- The three independent multiplicative adjustments (spec section 3). -/
structure ImpactFactors where
  traffic_pct : ℚ
  weather_pct : ℚ
  cargo_pct : ℚ
deriving DecidableEq, Repr

/-- Modelled from the spec: ImpactFactorModel.compute of the missing
backend (spec section 4.3). -/
def computeImpactFactors (p : VehicleProfile) (tc : String)
    (ws : WeatherSample) (w : ℚ) : ImpactFactors :=
  ⟨trafficPct tc, weatherPct ws, cargoPct p.mode w⟩

/-- Per-segment emissions figures (spec section 3, EmissionsResult). -/
structure EmissionsResult where
  total_co2 : ℚ
  fuel_consumed : ℚ
  traffic_pct : ℚ
  weather_pct : ℚ
  cargo_pct : ℚ
deriving DecidableEq, Repr

/-- Modelled from the spec: EmissionsCalculator.estimate of the missing
backend (spec section 4.4): fuel_consumed = distance / fuel_efficiency,
total_co2 = fuel_consumed * emission_factor * combined multiplier, with
the three impact factors composing multiplicatively. -/
def estimate (p : VehicleProfile) (tc : String) (ws : WeatherSample)
    (w d : ℚ) : EmissionsResult :=
  { total_co2 := d / p.fuel_efficiency * p.emission_factor *
      ((1 + trafficPct tc / 100) * (1 + weatherPct ws / 100) *
        (1 + cargoPct p.mode w / 100))
    fuel_consumed := d / p.fuel_efficiency
    traffic_pct := trafficPct tc
    weather_pct := weatherPct ws
    cargo_pct := cargoPct p.mode w }

/-- Per-segment inputs to route-variant aggregation. -/
structure SegmentEmissions where
  distance : ℚ
  total_co2 : ℚ
  fuel_consumed : ℚ
deriving DecidableEq, Repr

/-- Aggregated figures of one route variant (spec section 4.4). -/
structure AggregateResult where
  total_co2 : ℚ
  fuel_consumed : ℚ
  co2_per_distance_unit : ℚ
deriving DecidableEq, Repr

def totalDistance (segs : List SegmentEmissions) : ℚ :=
  (segs.map fun s => s.distance).sum

def sumCo2 (segs : List SegmentEmissions) : ℚ :=
  (segs.map fun s => s.total_co2).sum

def sumFuel (segs : List SegmentEmissions) : ℚ :=
  (segs.map fun s => s.fuel_consumed).sum

/-- Modelled from the spec: route-variant aggregation of the missing
backend (spec section 4.4): sums total_co2 and fuel_consumed, guards the
zero-length case with DegenerateRoute before dividing, and otherwise
computes co2_per_distance_unit = total_co2 / total_distance. -/
def aggregate (segs : List SegmentEmissions) : Except String AggregateResult :=
  if totalDistance segs = 0 then Except.error "DegenerateRoute"
  else Except.ok
    ⟨sumCo2 segs, sumFuel segs, sumCo2 segs / totalDistance segs⟩

/-- C4: aggregation over the segments of a route variant sums total_co2
and fuel_consumed and computes co2_per_distance_unit as their quotient
by the total distance; it fails with DegenerateRoute exactly when the
total distance is zero, and a successful result satisfies the division
equation (so the division only ever happens against a nonzero total). -/
theorem C4_aggregation_degenerate_route (segs : List SegmentEmissions) :
    (totalDistance segs = 0 →
      aggregate segs = Except.error "DegenerateRoute") ∧
    (totalDistance segs ≠ 0 → aggregate segs =
      Except.ok ⟨sumCo2 segs, sumFuel segs,
        sumCo2 segs / totalDistance segs⟩) ∧
    (∀ r, aggregate segs = Except.ok r →
      totalDistance segs ≠ 0 ∧ r.total_co2 = sumCo2 segs ∧
      r.fuel_consumed = sumFuel segs ∧
      r.co2_per_distance_unit * totalDistance segs = sumCo2 segs) := by
  by_cases h : totalDistance segs = 0
  · refine ⟨fun _ => ?_, fun hne => absurd h hne, ?_⟩
    · unfold aggregate
      rw [if_pos h]
    · intro r hr
      unfold aggregate at hr
      rw [if_pos h] at hr
      cases hr
  · refine ⟨fun h0 => absurd h0 h, fun _ => ?_, ?_⟩
    · unfold aggregate
      rw [if_neg h]
    · intro r hr
      unfold aggregate at hr
      rw [if_neg h] at hr
      cases hr
      exact ⟨h, rfl, rfl, div_mul_cancel₀ _ h⟩

/-- Witness for C4: the empty route is degenerate; a one-segment route
of length 10 aggregates successfully. -/
theorem C4_aggregation_degenerate_route_witness :
    aggregate [] = Except.error "DegenerateRoute" ∧
    aggregate [⟨10, 5, 2⟩] =
      Except.ok ⟨sumCo2 [⟨10, 5, 2⟩], sumFuel [⟨10, 5, 2⟩],
        sumCo2 [⟨10, 5, 2⟩] / totalDistance [⟨10, 5, 2⟩]⟩ :=
  ⟨(C4_aggregation_degenerate_route []).1 (by simp [totalDistance]),
   (C4_aggregation_degenerate_route [⟨10, 5, 2⟩]).2.1
     (by norm_num [totalDistance])⟩

/-- A route-calculation request (spec section 6), with the route
distance the routing provider reported for it. -/
structure RouteRequest where
  mode : String
  vehicle_type : String
  fuel_type : String
  traffic_condition : String
  cargo_weight_kg : ℚ
  distance_km : ℚ
deriving DecidableEq, Repr

/-- The user-visible response shape (spec sections 6 and 7): success
flag, human-readable detail on failure, numeric emissions on success. -/
structure ApiResponse where
  success : Bool
  detail : Option String
  emissions : List EmissionsResult
deriving DecidableEq, Repr

/-- Modelled from the spec: request handling by the missing backend
(spec sections 4.1 and 7): the profile is resolved before any emissions
computation; an unknown tuple is rejected with success false and a
detail string, and no numeric emissions result is produced. -/
def handleRequest (req : RouteRequest) (ws : WeatherSample) : ApiResponse :=
  match resolve req.mode req.vehicle_type req.fuel_type with
  | Except.error e => { success := false, detail := some e, emissions := [] }
  | Except.ok p =>
      { success := true, detail := none
        emissions := [estimate p req.traffic_condition ws
          req.cargo_weight_kg req.distance_km] }

/-- C5: a (mode, vehicle type, fuel type) tuple with no entry in the
profile table is rejected with the UnknownProfile error before any
emissions computation, the user-visible response is success false with
a detail string, and no numeric emissions result is produced. -/
theorem C5_unknown_profile_rejected (req : RouteRequest) (ws : WeatherSample)
    (h : resolveProfile req.mode req.vehicle_type req.fuel_type = none) :
    resolve req.mode req.vehicle_type req.fuel_type =
      Except.error "UnknownProfile" ∧
    handleRequest req ws =
      { success := false, detail := some "UnknownProfile"
        emissions := [] } := by
  have hr : resolve req.mode req.vehicle_type req.fuel_type =
      Except.error "UnknownProfile" := by
    unfold resolve
    rw [h]
  refine ⟨hr, ?_⟩
  unfold handleRequest
  rw [hr]

/-- Witness for C5 at the unknown tuple mode car, fuel type lng from the
spec example. -/
theorem C5_unknown_profile_rejected_witness :
    handleRequest ⟨"car", "petrol", "lng", "normal", 0, 10⟩
        ⟨20, 0, "clear", 0, false⟩ =
      { success := false, detail := some "UnknownProfile"
        emissions := [] } :=
  (C5_unknown_profile_rejected _ _ (by decide)).2

/-- C6: for freight modes the cargo impact is min (w / 10000 * 100) 50,
hence capped at 50 for every cargo weight; it is zero at zero cargo;
and non-freight modes get zero regardless of the supplied weight. -/
theorem C6_cargo_impact_capped (m : String) (w : ℚ) :
    (freightMode m = true →
      cargoPct m w = min (w / 10000 * 100) 50 ∧ cargoPct m w ≤ 50 ∧
      cargoPct m 0 = 0) ∧
    (freightMode m = false → cargoPct m w = 0) := by
  constructor
  · intro hf
    refine ⟨by unfold cargoPct; rw [if_pos hf], ?_, ?_⟩
    · unfold cargoPct
      rw [if_pos hf]
      exact min_le_right _ _
    · unfold cargoPct
      rw [if_pos hf]
      norm_num [min_def]
  · intro hf
    unfold cargoPct
    rw [if_neg (by simp [hf])]

/-- Witness for C6: a one-thousand-tonne truck load is capped at 50
percent, zero truck cargo gives zero, and a car ignores cargo. -/
theorem C6_cargo_impact_capped_witness :
    cargoPct "truck" 1000000 ≤ 50 ∧ cargoPct "truck" 0 = 0 ∧
    cargoPct "car" 5000 = 0 :=
  ⟨((C6_cargo_impact_capped "truck" 1000000).1 (by decide)).2.1,
   ((C6_cargo_impact_capped "truck" 1000000).1 (by decide)).2.2,
   (C6_cargo_impact_capped "car" 5000).2 (by decide)⟩

theorem profileTable_constants :
    ∀ p ∈ profileTable, 0 < p.fuel_efficiency ∧ 0 ≤ p.emission_factor := by
  intro p hp
  fin_cases hp <;> exact ⟨by norm_num, by norm_num⟩

theorem trafficMult_nonneg (tc : String) : 0 ≤ 1 + trafficPct tc / 100 := by
  unfold trafficPct
  split_ifs <;> norm_num

theorem weatherPct_nonneg (ws : WeatherSample) : 0 ≤ weatherPct ws := by
  unfold weatherPct
  apply le_min
  · positivity
  · norm_num

theorem cargoPct_nonneg (m : String) (w : ℚ) (hw : 0 ≤ w) :
    0 ≤ cargoPct m w := by
  unfold cargoPct
  split_ifs
  · apply le_min
    · positivity
    · norm_num
  · exact le_refl 0

theorem cargoPct_mono (m : String) (w1 w2 : ℚ) (h : w1 ≤ w2) :
    cargoPct m w1 ≤ cargoPct m w2 := by
  unfold cargoPct
  split_ifs
  · exact min_le_min (by linarith) (le_refl 50)
  · exact le_refl 0

/-- C7: for a truck profile of the table, with traffic, weather,
distance and profile fixed, the estimated total_co2 is monotonically
non-decreasing in the cargo weight. -/
theorem C7_truck_cargo_monotonicity (p : VehicleProfile) (tc : String)
    (ws : WeatherSample) (d w1 w2 : ℚ) (hp : p ∈ profileTable)
    (hm : p.mode = "truck") (hd : 0 ≤ d) (h1 : 0 ≤ w1) (h12 : w1 ≤ w2) :
    (estimate p tc ws w1 d).total_co2 ≤ (estimate p tc ws w2 d).total_co2 := by
  obtain ⟨heff, hfac⟩ := profileTable_constants p hp
  show d / p.fuel_efficiency * p.emission_factor *
      ((1 + trafficPct tc / 100) * (1 + weatherPct ws / 100) *
        (1 + cargoPct p.mode w1 / 100)) ≤
    d / p.fuel_efficiency * p.emission_factor *
      ((1 + trafficPct tc / 100) * (1 + weatherPct ws / 100) *
        (1 + cargoPct p.mode w2 / 100))
  have hbase : 0 ≤ d / p.fuel_efficiency * p.emission_factor :=
    mul_nonneg (div_nonneg hd heff.le) hfac
  have htw : 0 ≤ (1 + trafficPct tc / 100) * (1 + weatherPct ws / 100) :=
    mul_nonneg (trafficMult_nonneg tc) (by linarith [weatherPct_nonneg ws])
  have hc : 1 + cargoPct p.mode w1 / 100 ≤ 1 + cargoPct p.mode w2 / 100 := by
    have := cargoPct_mono p.mode w1 w2 h12
    linarith
  exact mul_le_mul_of_nonneg_left (mul_le_mul_of_nonneg_left hc htw) hbase

/-- Witness for C7: the small diesel truck over 100 km, cargo raised
from 0 to 1000 kg. -/
theorem C7_truck_cargo_monotonicity_witness :
    (estimate ⟨"truck", "small", "diesel", 5, 2.68, 50⟩ "normal"
        ⟨20, 0, "clear", 0, false⟩ 0 100).total_co2 ≤
      (estimate ⟨"truck", "small", "diesel", 5, 2.68, 50⟩ "normal"
        ⟨20, 0, "clear", 0, false⟩ 1000 100).total_co2 :=
  C7_truck_cargo_monotonicity ⟨"truck", "small", "diesel", 5, 2.68, 50⟩
    "normal" ⟨20, 0, "clear", 0, false⟩ 100 0 1000 (by simp [profileTable])
    rfl (by norm_num) (by norm_num) (by norm_num)

/-- C8: for every profile of the table and every nonnegative distance
and cargo weight, the emissions estimate has nonnegative fuel_consumed
and nonnegative total_co2, whatever the traffic category and weather
sample. -/
theorem C8_nonnegative_emissions (p : VehicleProfile) (tc : String)
    (ws : WeatherSample) (d w : ℚ) (hp : p ∈ profileTable) (hd : 0 ≤ d)
    (hw : 0 ≤ w) :
    0 ≤ (estimate p tc ws w d).fuel_consumed ∧
    0 ≤ (estimate p tc ws w d).total_co2 := by
  obtain ⟨heff, hfac⟩ := profileTable_constants p hp
  have hfuel : 0 ≤ d / p.fuel_efficiency := div_nonneg hd heff.le
  refine ⟨hfuel, ?_⟩
  show 0 ≤ d / p.fuel_efficiency * p.emission_factor *
      ((1 + trafficPct tc / 100) * (1 + weatherPct ws / 100) *
        (1 + cargoPct p.mode w / 100))
  have hwm : 0 ≤ 1 + weatherPct ws / 100 := by
    have := weatherPct_nonneg ws
    linarith
  have hcm : 0 ≤ 1 + cargoPct p.mode w / 100 := by
    have := cargoPct_nonneg p.mode w hw
    linarith
  exact mul_nonneg (mul_nonneg hfuel hfac)
    (mul_nonneg (mul_nonneg (trafficMult_nonneg tc) hwm) hcm)

/-- Witness for C8: the articulated diesel truck in congested traffic,
hot windy weather, 250 km and 20 tonnes of cargo. -/
theorem C8_nonnegative_emissions_witness :
    0 ≤ (estimate ⟨"truck", "articulated", "diesel", 3, 2.68, 50⟩
        "congested" ⟨38, 30, "storm", 0, false⟩ 20000 250).fuel_consumed ∧
    0 ≤ (estimate ⟨"truck", "articulated", "diesel", 3, 2.68, 50⟩
        "congested" ⟨38, 30, "storm", 0, false⟩ 20000 250).total_co2 :=
  C8_nonnegative_emissions ⟨"truck", "articulated", "diesel", 3, 2.68, 50⟩
    "congested" ⟨38, 30, "storm", 0, false⟩ 250 20000
    (by simp [profileTable]) (by norm_num) (by norm_num)

/-- The member names read off a route's emissions object by the Sidebar
consumers, embedded from src/frontend/src/components/Sidebar.js (the
Environmental Impact and Impact Factors blocks) and from the Sidebar
variant in src/unnamed/part_002 (same accesses): both read total_kg,
per_km, fuel_consumed_liters, traffic_impact, weather_impact and
cargo_impact. -/
def emissionsFieldsRead : List String :=
  ["total_kg", "per_km", "fuel_consumed_liters",
   "traffic_impact", "weather_impact", "cargo_impact"]

/-- The emissions field names as the spec words them (section 6); kept
as a separate definition, to be compared against the consumer-derived
list above. -/
def specEmissionsFields : List String :=
  ["total_kg", "per_km", "fuel_consumed_liters",
   "traffic_impact_pct", "weather_impact_pct", "cargo_impact_pct"]

/-- C9 counterexample: none of the pct-suffixed impact-factor names the
claim asserts occurs among the emissions fields the repository's
consumers read; they read traffic_impact instead, so a consumer reading
traffic_impact_pct would not find it defined on the response's
emissions object. -/
theorem C9_pct_names_counterexample :
    "traffic_impact_pct" ∉ emissionsFieldsRead ∧
    "weather_impact_pct" ∉ emissionsFieldsRead ∧
    "cargo_impact_pct" ∉ emissionsFieldsRead ∧
    "traffic_impact" ∈ emissionsFieldsRead := by
  refine ⟨?_, ?_, ?_, ?_⟩ <;> decide

/-- C9 amended: the impact-factor fields of a route's emissions object
are named traffic_impact, weather_impact and cargo_impact (alongside
total_kg, per_km and fuel_consumed_liters) — the names both Sidebar
consumers read — and this field-name list differs from the spec's
pct-suffixed one. -/
theorem C9_emissions_field_names :
    "total_kg" ∈ emissionsFieldsRead ∧
    "per_km" ∈ emissionsFieldsRead ∧
    "fuel_consumed_liters" ∈ emissionsFieldsRead ∧
    "traffic_impact" ∈ emissionsFieldsRead ∧
    "weather_impact" ∈ emissionsFieldsRead ∧
    "cargo_impact" ∈ emissionsFieldsRead ∧
    specEmissionsFields ≠ emissionsFieldsRead := by
  refine ⟨?_, ?_, ?_, ?_, ?_, ?_, ?_⟩ <;> decide

/-- JavaScript Math.round: round half up to the nearest integer. -/
def jsRound (x : ℚ) : ℤ := ⌊x + 1 / 2⌋

/-- Math.round (x * 1000) / 1000, as in generateMockData. -/
def round3 (x : ℚ) : ℚ := (jsRound (x * 1000) : ℚ) / 1000

/-- Math.round (x * 100) / 100, as in generateMockData. -/
def round2 (x : ℚ) : ℚ := (jsRound (x * 100) : ℚ) / 100

/-- Math.round (x * 10) / 10, as in generateMockData. -/
def round1 (x : ℚ) : ℚ := (jsRound (x * 10) : ℚ) / 10

/-- The form data of the RouteCalculator in src/frontend/src/App.js. -/
structure MockRouteForm where
  origin_lat : ℚ
  origin_lng : ℚ
  destination_lat : ℚ
  destination_lng : ℚ
  transport_mode : String
  fuel_type : String
  cargo_weight_kg : ℚ
deriving DecidableEq, Repr

/-- Embedded from src/frontend/src/App.js: the fuel-efficiency lookup
of generateMockData, written there as a literal object indexed by
fuel_type with 3.5 as the or-else default. -/
def mockFuelEfficiency (f : String) : ℚ :=
  if f = "diesel" then 3.5
  else if f = "electric" then 0.2
  else if f = "lng" then 4.2
  else 3.5

/-- Embedded from src/frontend/src/App.js: the CO2-factor lookup of
generateMockData, with 2.68 as the or-else default. -/
def mockCo2Factor (f : String) : ℚ :=
  if f = "diesel" then 2.68
  else if f = "electric" then 0.5
  else if f = "lng" then 2.1
  else 2.68

/-- The emissions block of the mock result in src/frontend/src/App.js. -/
structure MockEmissions where
  total_co2_kg : ℚ
  co2_per_km : ℚ
  fuel_consumed_liters : ℚ
  fuel_cost_estimate : ℚ
deriving DecidableEq, Repr

/-- The slice of the mock result object of src/frontend/src/App.js that
the claims concern: the success flag and the numeric figures. -/
structure MockResult where
  success : Bool
  distance_km : ℚ
  duration_hours : ℚ
  emissions : MockEmissions
  eco_score : ℚ
deriving DecidableEq, Repr

/-- Embedded from src/frontend/src/App.js, generateMockData.  The
distance argument stands for calculateDistanceKm of the form's origin
and destination, whose Haversine trigonometry is kept abstract; every
downstream formula is embedded literally, in particular the uncapped
cargo multiplier 1 + cargo_weight_kg / 10000 and the unconditional
success true. -/
def generateMockData (distance : ℚ) (form : MockRouteForm) : MockResult :=
  let fuelEfficiency := mockFuelEfficiency form.fuel_type
  let co2Factor := mockCo2Factor form.fuel_type
  let fuelConsumed := distance / fuelEfficiency
  let totalCo2 := fuelConsumed * co2Factor * (1 + form.cargo_weight_kg / 10000)
  let duration := distance / 70
  let ecoScore := max 0 (100 - totalCo2 / distance * 50)
  { success := true
    distance_km := round2 distance
    duration_hours := round2 duration
    emissions :=
      { total_co2_kg := round3 totalCo2
        co2_per_km := round3 (totalCo2 / distance)
        fuel_consumed_liters := round2 fuelConsumed
        fuel_cost_estimate := round2 (fuelConsumed * 1.5) }
    eco_score := round1 ecoScore }

/-- Embedded from src/frontend/src/App.js, handleSubmit: the
calculateRoute call either produces a result or throws; the catch
branch falls back to generateMockData on the submitted form and still
delivers that result to onRouteCalculated.  none models a thrown fetch
(backend unreachable). -/
def handleSubmit (outcome : Option MockResult) (distance : ℚ)
    (form : MockRouteForm) : MockResult :=
  match outcome with
  | some result => result
  | none => generateMockData distance form

/-- C10: when the route-calculation call throws, the submit handler
delivers the locally generated mock result instead of a failure: the
delivered result is generateMockData's, its success field is true for
every form, and its total CO2 uses the uncapped cargo multiplier
1 + cargo_weight_kg / 10000. -/
theorem C10_mock_fallback_on_fetch_error (distance : ℚ)
    (form : MockRouteForm) :
    handleSubmit none distance form = generateMockData distance form ∧
    (generateMockData distance form).success = true ∧
    (generateMockData distance form).emissions.total_co2_kg =
      round3 (distance / mockFuelEfficiency form.fuel_type *
        mockCo2Factor form.fuel_type *
        (1 + form.cargo_weight_kg / 10000)) :=
  ⟨rfl, rfl, rfl⟩

end EcoRoute
